import Mathlib

/-!
Verification of the nnsplit segmentation engine's backend, model loader and
JavaScript binding against their natural-language specification.

The embedding follows the repository sources:
  - src/nnsplit/src/tract_backend.rs   (TractBackend, NNSplit for tract)
  - src/nnsplit/src/model_loader.rs    (get_resource, ResourceError)
  - src/bindings/javascript/src/lib.rs (JS Split conversion, JS NNSplit)
The core crate (NNSplitLogic, Split, SplitSequence, Level) is not part of the
available sources; where a claim depends on it, the corresponding definition is
modelled from the specification (and, where the specification is contradicted
by the repository's own tests, from those tests), and is marked as such.
-/

/-- A segmentation level. The core crate defines `pub struct Level(pub String)`;
the repository's own files construct values such as `Level("Sentence".into())`
(tract_backend.rs, test `getting_levels_works`) and read the field as `x.0`
(javascript lib.rs, `get_levels`). -/
structure Level where
  name : String
deriving DecidableEq, BEq

/-- The reserved marker that opens the name of a hidden level: the underscore,
as witnessed by the hidden `_Whitespace` level of the bundled German model in
the repository test `getting_levels_works`. -/
def hiddenMarker : Char := '_'

/-- Modelled from the spec: "`hidden = true` iff name begins with a reserved
marker prefix" (spec section 3). -/
def Level.hidden (l : Level) : Bool :=
  l.name.data.head? == some hiddenMarker

/-- Modelled from the spec: "SplitSequence: ordered sequence of Level"
(spec section 3). The core crate is not under the available sources. -/
structure SplitSequence where
  levels : List Level
deriving DecidableEq, BEq

/-- Modelled from the spec: `SplitSequence::get_levels` exactly as the spec
words it — "`get_levels()` returns only non-hidden level names, in the exact
order declared by the model metadata". This definition exists to be compared
against the behaviour fixed by the repository's test. -/
def SplitSequence.get_levels_spec (s : SplitSequence) : List Level :=
  s.levels.filter (fun l => !l.hidden)

/-- Modelled from the spec and the repository test: `SplitSequence::get_levels`.
The core crate is not under the available sources, but the test
`getting_levels_works` (tract_backend.rs lines 174-191) fixes its observable
output on the bundled German model: every level of the split sequence, hidden
ones included, in declared order. -/
def SplitSequence.get_levels (s : SplitSequence) : List Level :=
  s.levels

/-- The split sequence of the bundled German model, in the order declared by
its metadata, as exhibited by the test `getting_levels_works`. -/
def deTestSequence : SplitSequence :=
  ⟨[⟨"Sentence"⟩, ⟨"Token"⟩, ⟨"_Whitespace"⟩, ⟨"Compound constituent"⟩]⟩

/-- The exact list the repository test `getting_levels_works` asserts to be
the result of `get_levels()` on the bundled German model
(tract_backend.rs lines 182-190). -/
def getting_levels_works_expected : List Level :=
  [⟨"Sentence"⟩, ⟨"Token"⟩, ⟨"_Whitespace"⟩, ⟨"Compound constituent"⟩]

/-- An encoded input window: one row of the `Array2<u8>` passed to
`TractBackend::predict`, one byte per position. -/
abbrev Window := List Nat

/-- The prediction matrix for one window: position times output channel,
f32 values (one slice `preds[i, .., ..]` of the `Array3<f32>`). -/
abbrev PredMat := List (List Float)

/-- Shape check for one window's prediction matrix against the slice of the
output buffer it is assigned into: `seqLen` positions, `nOut` channels
(`ndarray` panics on `assign` when shapes disagree). -/
def predShapeOk (seqLen nOut : Nat) (m : PredMat) : Bool :=
  m.length == seqLen && m.all (fun row => row.length == nOut)

/-- The sigmoid applied in `TractBackend::predict`
(tract_backend.rs line 38): `1 / (1 + (-x).exp())`. -/
def sigmoid (x : Float) : Float :=
  1 / (1 + Float.exp (-x))

/-- Elementwise sigmoid over one window's prediction matrix
(`batch_preds.mapv_inplace` restricted to one batch element). -/
def sigmoidMat (m : PredMat) : PredMat :=
  m.map (fun row => row.map sigmoid)

/-- A tract model dimension (`TDim`): a concrete value or a symbolic
expression. -/
inductive TDim where
  | val (n : Nat)
  | sym
deriving DecidableEq

/-- The tract backend (tract_backend.rs lines 8-11). The opaque typed model
plan is modelled by its batch evaluation function `run`
(`self.model.run(tvec![batch_inputs])` followed by `into_array`): for a batch
of windows it returns one raw prediction matrix per window, or a tract error. -/
structure TractBackend where
  run : List Window → Except String (List PredMat)
  n_outputs : Nat

/-- TractBackend::new (tract_backend.rs lines 14-23): reads the output channel
count from entry 2 of the model's output shape; when that dimension is not a
concrete `TDim::Val`, `n_outputs` silently becomes 0 (the code carries a
"TODO: raise error here" comment but raises nothing). It never fails. -/
def TractBackend.new (run : List Window → Except String (List PredMat))
    (outDim : TDim) : Except String TractBackend :=
  Except.ok
    { run := run
      n_outputs :=
        match outDim with
        | TDim.val v => v
        | TDim.sym => 0 }

/-- Column count of the input matrix, `input.shape()[1]` of the `Array2<u8>`
(all rows of an `Array2` have this length). -/
def colsOf (input : List Window) : Nat :=
  (input.headD []).length

/-- The sub-batch loop of `TractBackend::predict` (tract_backend.rs lines
29-41): take the next `bs` windows, run the model on them, check that the
returned block fits the `preds.slice_mut(s![start..end, .., ..])` target
(an `ndarray` shape mismatch is a panic, modelled as an error), apply the
sigmoid, and continue with the remaining windows. For `bs ≥ 1` the chunk
`w :: ws.take (bs - 1)` and remainder `ws.drop (bs - 1)` are exactly the
`start..min(start + batch_size, n)` slices of the source. -/
def TractBackend.predictGo (tb : TractBackend) (seqLen bs : Nat) :
    List Window → Except String (List PredMat)
  | [] => Except.ok []
  | w :: ws =>
    match tb.run (w :: ws.take (bs - 1)) with
    | Except.error e => Except.error e
    | Except.ok batchPreds =>
      if batchPreds.length == (w :: ws.take (bs - 1)).length
          && batchPreds.all (predShapeOk seqLen tb.n_outputs) then
        match tb.predictGo seqLen bs (ws.drop (bs - 1)) with
        | Except.error e => Except.error e
        | Except.ok restPreds =>
          Except.ok (batchPreds.map sigmoidMat ++ restPreds)
      else Except.error "panicked: ndarray could not assign, shapes disagree"
termination_by l => l.length
decreasing_by simp [List.length_drop]; omega

/-- TractBackend::predict (tract_backend.rs lines 25-44): iterate over the
input rows in steps of `batch_size` (`step_by` panics on a zero step,
modelled as an error) and collect the per-window sigmoid predictions;
output row `i` is assigned from the sub-batch containing input row `i`. -/
def TractBackend.predict (tb : TractBackend) (input : List Window)
    (batch_size : Nat) : Except String (List PredMat) :=
  if batch_size == 0 then Except.error "panicked: Step must be non-zero"
  else tb.predictGo (colsOf input) batch_size input

/-- The engine options (core crate; field list as documented by the
JavaScript binding's constructor, javascript lib.rs lines 74-80, plus the
`cache_dir` used by `NNSplit::load`). -/
structure NNSplitOptions where
  threshold : Float
  stride : Nat
  max_length : Nat
  padding : Nat
  batch_size : Nat
  length_divisor : Nat
  cache_dir : List String

/-- The core output tree. The core crate defines
`enum Split<'a> { Split((&'a str, Vec<Split<'a>>)), Text(&'a str) }`; the
JavaScript binding (lib.rs lines 35-58) matches on exactly these two
variants. `node` models the `Split::Split((text, parts))` variant and
`text` the `Split::Text` leaf. -/
inductive Split where
  | text (s : String)
  | node (t : String) (parts : List Split)

/-- Modelled from the spec: the core engine's logic object
(`NNSplitLogic`, not under the available sources), holding the immutable
options and split sequence (spec section 3, "loaded once per model and
immutable thereafter"). The two function-valued fields model the Windower
(spec section 4.1: texts to encoded windows plus a window-to-text index map)
and the per-text Aggregator plus Tree Builder (spec sections 4.2-4.3: one
tree built for a text from the predictions and the index map); no claim
settled here depends on their internals. -/
structure NNSplitLogic where
  options : NNSplitOptions
  split_sequence : SplitSequence
  get_inputs_and_indices : List String → List Window × List (Nat × Nat)
  build : String → List PredMat → List (Nat × Nat) → Split

/-- NNSplitLogic::new, as called by `NNSplit::from_model`
(tract_backend.rs line 96): packages the options and the parsed split
sequence (the modelled windower and builder are passed explicitly). -/
def NNSplitLogic.new (options : NNSplitOptions) (split_sequence : SplitSequence)
    (enc : List String → List Window × List (Nat × Nat))
    (build : String → List PredMat → List (Nat × Nat) → Split) : NNSplitLogic :=
  ⟨options, split_sequence, enc, build⟩

/-- Modelled from the spec: `NNSplitLogic::split` — "split(texts: [string])
-> [Split], one tree per input text" (spec section 6): one tree per text, in
input order, each produced by the Tree Builder from that text and the
predictions. -/
def NNSplitLogic.split (logic : NNSplitLogic) (texts : List String)
    (slice_preds : List PredMat) (indices : List (Nat × Nat)) : List Split :=
  texts.map (fun t => logic.build t slice_preds indices)

/-- Outcome of a call that either returns normally or panics (Rust panics
carry a message and return no value to the caller). -/
inductive PanicOr (α : Type) where
  | panicked (msg : String)
  | ok (val : α)

/-- The complete tract splitter (tract_backend.rs lines 48-51). -/
structure NNSplit where
  backend : TractBackend
  logic : NNSplitLogic

/-- NNSplit::split (tract_backend.rs lines 120-129): encode the texts, run
the backend, and build the trees. The backend result is unwrapped with
`.expect("model failure.")`, so a backend error becomes a panic whose
message is `model failure.` followed by the error — the function's return
type `Vec<Split>` has no error case. -/
def NNSplit.split (nn : NNSplit) (texts : List String) : PanicOr (List Split) :=
  let p := nn.logic.get_inputs_and_indices texts
  match nn.backend.predict p.1 nn.logic.options.batch_size with
  | Except.error e => PanicOr.panicked ("model failure.: " ++ e)
  | Except.ok slice_preds => PanicOr.ok (nn.logic.split texts slice_preds p.2)

/-- One entry of the ONNX model's `metadata_props`. -/
structure MetadataProp where
  key : String
  value : String

/-- NNSplit::from_model (tract_backend.rs lines 71-98), starting after the
tract model has been typed (`type_model`; its opaque tract errors are outside
the metadata handling this models): look up the first `split_sequence`
metadata entry, failing if absent; construct the backend; then parse the
entry with `serde_json::from_str` (modelled by `parse`), failing if
unparseable, and assemble the splitter. No comparison between the parsed
sequence's level count and the backend's `n_outputs` occurs anywhere. -/
def NNSplit.from_model (metadata_props : List MetadataProp)
    (parse : String → Option SplitSequence)
    (run : List Window → Except String (List PredMat)) (outDim : TDim)
    (options : NNSplitOptions)
    (enc : List String → List Window × List (Nat × Nat))
    (build : String → List PredMat → List (Nat × Nat) → Split) :
    Except String NNSplit :=
  match (metadata_props.find? (fun x => x.key == "split_sequence")).map
      MetadataProp.value with
  | none => Except.error "Model must contain `split_sequence` metadata key"
  | some s =>
    match TractBackend.new run outDim with
    | Except.error e => Except.error e
    | Except.ok backend =>
      match parse s with
      | none => Except.error "serde_json: invalid split_sequence value"
      | some seq => Except.ok ⟨backend, NNSplitLogic.new options seq enc build⟩

/-- The metadata conditions under which `from_model` fails: the
`split_sequence` entry is missing, or its value does not parse. -/
def metadataBad (metadata_props : List MetadataProp)
    (parse : String → Option SplitSequence) : Bool :=
  match (metadata_props.find? (fun x => x.key == "split_sequence")).map
      MetadataProp.value with
  | none => true
  | some s => (parse s).isNone

/-- Test fixture: a backend model run that always fails. -/
def boomRun : List Window → Except String (List PredMat) :=
  fun _ => Except.error "boom"

/-- Test fixture: a per-window prediction function with one output channel
per position (value 0, so shapes are `(w.length, 1)`). -/
def witF : Window → PredMat :=
  fun w => w.map (fun _ => [(0 : Float)])

/-- Test fixture: a backend model run that predicts `witF` row-wise. -/
def okRun : List Window → Except String (List PredMat) :=
  fun b => Except.ok (b.map witF)

/-- Test fixture: a windower producing one two-byte window mapped to text 0
at offset 0. -/
def witEnc : List String → List Window × List (Nat × Nat) :=
  fun _ => ([[0, 0]], [(0, 0)])

/-- Test fixture: a tree builder producing a leaf with the text itself. -/
def witBuild : String → List PredMat → List (Nat × Nat) → Split :=
  fun t _ _ => Split.text t

/-- Test fixture: concrete option values (batch size 1). -/
def witOptions : NNSplitOptions :=
  { threshold := 0.5, stride := 1, max_length := 2, padding := 0,
    batch_size := 1, length_divisor := 1, cache_dir := [] }

/-- Test fixture: a splitter whose backend always fails. -/
def failingNN : NNSplit :=
  { backend := { run := boomRun, n_outputs := 1 }
    logic := NNSplitLogic.new witOptions deTestSequence witEnc witBuild }

/-- Test fixture: a splitter whose backend predicts `witF` row-wise. -/
def okNN : NNSplit :=
  { backend := { run := okRun, n_outputs := 1 }
    logic := NNSplitLogic.new witOptions deTestSequence witEnc witBuild }

/-- Test fixture: a two-level split sequence for the channel-count
counterexample. -/
def cexSeq : SplitSequence :=
  ⟨[⟨"Sentence"⟩, ⟨"Token"⟩]⟩

/-- Test fixture: a parse function accepting exactly one descriptor string. -/
def cexParse : String → Option SplitSequence :=
  fun s => if s == "sentence-token-descriptor" then some cexSeq else none

/-- Test fixture: metadata carrying the parseable two-level descriptor. -/
def cexProps : List MetadataProp :=
  [⟨"split_sequence", "sentence-token-descriptor"⟩]

/-- A filesystem path, as a list of components (`PathBuf`, built by `join`). -/
abbrev FsPath := List String

/-- The model registry `MODEL_DATA` (model_loader.rs lines 9-23): a map from
model name to base URL built from the embedded `models.csv` (first and second
column of each line). The csv file is embedded at compile time and is not
under the available sources, so the registry contents are a parameter. -/
structure ModelRegistry where
  entries : List (String × String)

/-- HashMap::get on the registry: the URL recorded for a model name. -/
def ModelRegistry.get (r : ModelRegistry) (model_name : String) :
    Option String :=
  (r.entries.find? (fun p => p.1 == model_name)).map Prod.snd

/-- The url crate operations used by `get_resource` (an external
collaborator): `Url::parse` on the registry entry and `Url::join` with the
file name; either can fail with a `url::ParseError`, which the source
converts into `ResourceError::UrlParseError` through the `From` impl at
model_loader.rs lines 43-47. A URL is modelled by its string. -/
structure UrlLib where
  parse : String → Except String String
  join : String → String → Except String String

/-- An error retrieving a resource: the four variants of `ResourceError`
(model_loader.rs lines 26-41). Payloads of external error types
(`minreq::Error`, `url::ParseError`, `std::io::Error`) are modelled as
strings. -/
inductive ResourceError where
  | networkError (model_name file_name source : String)
  | modelNotFoundError (model_name : String)
  | urlParseError (source : String)
  | ioError (source : String)
deriving DecidableEq

/-- The three error kinds the specification allows `get_resource` to fail
with: `ResourceNotFound` (model unknown), `TransferFailure` (network error)
and `CacheIoFailure` (local filesystem error), stated over the source's
error type so the spec's taxonomy can be compared with the code's. -/
def specAllowedErrorKind : ResourceError → Bool
  | ResourceError.networkError _ _ _ => true
  | ResourceError.modelNotFoundError _ => true
  | ResourceError.urlParseError _ => false
  | ResourceError.ioError _ => true

/-- The world `get_resource` interacts with: the readable files of the local
filesystem (path to bytes, `fs::read`), the network
(`minreq::get(url).send()`, by URL string) and whether the cache-write step
(`create_dir_all`, `File::create`, `write_all`) fails with an io error. -/
structure World where
  fs : List (FsPath × List Nat)
  net : String → Except String (List Nat)
  writeErr : Option String

/-- fs::read in a world: the bytes at a path, when the file is readable. -/
def World.read (w : World) (p : FsPath) : Option (List Nat) :=
  (w.fs.find? (fun e => e.1 == p)).map Prod.snd

/-- get_resource (model_loader.rs lines 55-90): resolve the model name in
the registry (else `ModelNotFoundError`), parse its base URL and join the
file name onto it (else `UrlParseError`), then return the cached bytes when
the file at `cache_path/model_name/file` can be read; otherwise fetch the
URL (a network failure becomes `NetworkError` carrying the model and file
names), persist the fetched bytes at that cache path (an io failure becomes
`IoError`) and return the same bytes. The returned world carries the
filesystem after any caching write. -/
def get_resource (registry : ModelRegistry) (urls : UrlLib)
    (model_name file : String) (cache_path : FsPath) (w : World) :
    Except ResourceError (List Nat × FsPath × World) :=
  match registry.get model_name with
  | none => Except.error (ResourceError.modelNotFoundError model_name)
  | some base_str =>
    match urls.parse base_str with
    | Except.error e => Except.error (ResourceError.urlParseError e)
    | Except.ok base_url =>
      match urls.join base_url file with
      | Except.error e => Except.error (ResourceError.urlParseError e)
      | Except.ok url =>
        match w.read (cache_path ++ [model_name, file]) with
        | some bytes => Except.ok (bytes, cache_path ++ [model_name, file], w)
        | none =>
          match w.net url with
          | Except.error e =>
            Except.error (ResourceError.networkError model_name file e)
          | Except.ok bytes =>
            match w.writeErr with
            | some e => Except.error (ResourceError.ioError e)
            | none =>
              Except.ok (bytes, cache_path ++ [model_name, file],
                { w with fs := (cache_path ++ [model_name, file], bytes) :: w.fs })

/-- Test fixture: a registry with one model. -/
def registry1 : ModelRegistry :=
  ⟨[("de", "https-base")]⟩

/-- Test fixture: a url library that accepts everything and joins with a
slash. -/
def urls1 : UrlLib :=
  { parse := fun s => Except.ok s
    join := fun b f => Except.ok (b ++ "/" ++ f) }

/-- Test fixture: a world whose cache already holds the model file and whose
network is unreachable. -/
def w1 : World :=
  { fs := [(["cache", "de", "model.onnx"], [1, 2, 3])]
    net := fun _ => Except.error "offline"
    writeErr := none }

/-- Test fixture: a registry whose entry for model `m` is not a parseable
URL. -/
def registry2 : ModelRegistry :=
  ⟨[("m", "bad")]⟩

/-- Test fixture: a url library that rejects the string `bad` the way
`Url::parse` rejects a string with no scheme. -/
def urls2 : UrlLib :=
  { parse := fun s =>
      if s == "bad" then Except.error "relative URL without a base"
      else Except.ok s
    join := fun b f => Except.ok (b ++ "/" ++ f) }

/-- Test fixture: an empty-cache world with an unreachable network. -/
def w2 : World :=
  { fs := [], net := fun _ => Except.error "offline", writeErr := none }

/-- A part of a converted JavaScript `Split`: the binding stores
`parts: Vec<JsValue>`, each entry either a plain string (a converted core
`Text` leaf) or a nested converted `Split` (javascript lib.rs lines 42-48). -/
inductive JsPart where
  | str (s : String)
  | node (text : String) (parts : List JsPart)

/-- The child conversion inside `From<core::Split> for Split` (javascript
lib.rs lines 42-48): a child `Split::Split` node is converted recursively
(through the same `From` impl, which cannot panic on a node) and wrapped as a
`JsValue`; a child `Text` leaf becomes a plain string `JsValue`. -/
def coreToJsPart : Split → JsPart
  | Split.text s => JsPart.str s
  | Split.node t parts =>
    JsPart.node t (parts.attach.map (fun x => coreToJsPart x.1))
decreasing_by
  have h := List.sizeOf_lt_of_mem x.2
  simp only [Split.node.sizeOf_spec] at *
  omega

/-- From<core::Split> for Split (javascript lib.rs lines 35-58): converting a
core `Text` leaf is `panic!("text can not be converted to a Split")`,
modelled as `none`; converting a core `Split::Split` node yields the binding
`Split` — its text and the converted children. -/
def Split.fromCore : Split → Option (String × List JsPart)
  | Split.text _ => none
  | Split.node t parts => some (t, parts.map coreToJsPart)

/-- NNSplit::invalid_new, the synchronous JS constructor (javascript lib.rs
lines 68-71): it takes no input and returns an `Err` unconditionally. The
message models the source text "NNSplit can_t be constructed directly
because it is asynchronous! Please use NNSplit.new." with the contraction
spelled out. -/
def NNSplitJs.invalid_new : Except String Unit :=
  Except.error
    "NNSplit cannot be constructed directly because it is asynchronous! Please use NNSplit.new."

/-- Outcome of the options-handling prelude of the asynchronous JS
constructor `NNSplit::new` (javascript lib.rs lines 83-87): either option
values were produced, or the thread panicked (`unwrap` of a failed
deserialization). There is no error-return case for options. -/
inductive OptionsOutcome where
  | ok (opts : NNSplitOptions)
  | panicked (msg : String)

/-- The options argument of the JS constructor after the external
deserialization is applied: `none` models a JS `undefined` or `null`;
`some none` models an object `into_serde::<NNSplitOptions>` fails on;
`some (some o)` models an object deserializing to `o`. Serde's derived
deserialization is structural — it checks field types and performs no range
validation — so any numeric field values, such as a threshold of 2 or a
stride of 0, deserialize to exactly those values. -/
abbrev JsOptionsArg := Option (Option NNSplitOptions)

/-- The options handling of the JS constructor `NNSplit::new` (javascript
lib.rs lines 83-87): absent options give `NNSplitOptions::default()` (the
concrete default values live in the core crate and are passed here as
`defaultOpts`); otherwise the deserialization result is `.unwrap()`ed, so a
failure is a panic, not an error return. No field value is inspected or
rejected. -/
def jsNewOptions (defaultOpts : NNSplitOptions) :
    JsOptionsArg → OptionsOutcome
  | none => OptionsOutcome.ok defaultOpts
  | some none =>
    OptionsOutcome.panicked "called `Result::unwrap()` on an `Err` value"
  | some (some o) => OptionsOutcome.ok o

/-- Test fixture: option values that are invalid according to the spec — a
threshold outside (0,1) and zero stride, max_length and length_divisor. -/
def invalidOptions : NNSplitOptions :=
  { threshold := 2.0, stride := 0, max_length := 0, padding := 0,
    batch_size := 1, length_divisor := 0, cache_dir := [] }

/-- C1, counterexample: the repository's own test fixes the output of
`get_levels()` on the bundled German model, and that output contains the
hidden level `_Whitespace`; consequently the spec-worded `get_levels`
(visible levels only) disagrees with the behaviour the test asserts. The
claim "get_levels() returns only the non-hidden level names" is false on
this model. -/
theorem C1_counterexample :
    SplitSequence.get_levels deTestSequence = getting_levels_works_expected
    ∧ Level.hidden ⟨"_Whitespace"⟩ = true
    ∧ ⟨"_Whitespace"⟩ ∈ getting_levels_works_expected
    ∧ SplitSequence.get_levels_spec deTestSequence ≠ getting_levels_works_expected := by
  refine ⟨rfl, by decide, ?_, ?_⟩
  · simp [getting_levels_works_expected]
  · decide

/-- C1, amended: `get_levels()` returns the names of ALL levels of the split
sequence — hidden levels included — in the exact order declared by the model
metadata; on the bundled German model this is exactly the list asserted by
the repository test `getting_levels_works`. -/
theorem C1_get_levels_all_levels (s : SplitSequence) :
    s.get_levels = s.levels
    ∧ SplitSequence.get_levels deTestSequence = getting_levels_works_expected := by
  exact ⟨rfl, rfl⟩

/-- Helper: when the model evaluates each window independently (`run` maps a
per-window function `f` over its batch) and every window of the list gets a
prediction of the expected shape, the sub-batch loop of
`TractBackend::predict` yields exactly the row-wise sigmoid predictions,
whatever the batch size. -/
theorem predictGo_rowwise (tb : TractBackend) (f : Window → PredMat)
    (seqLen bs : Nat)
    (hrun : ∀ b, tb.run b = Except.ok (b.map f)) :
    ∀ n (l : List Window), l.length ≤ n →
      (∀ w ∈ l, predShapeOk seqLen tb.n_outputs (f w) = true) →
      tb.predictGo seqLen bs l =
        Except.ok (l.map (fun w => sigmoidMat (f w))) := by
  intro n
  induction n with
  | zero =>
    intro l hl _
    have hnil : l = [] := List.eq_nil_of_length_eq_zero (Nat.le_zero.mp hl)
    subst hnil
    simp [TractBackend.predictGo]
  | succ n ih =>
    intro l hl hshape
    match l with
    | [] => simp [TractBackend.predictGo]
    | w :: ws =>
      rw [TractBackend.predictGo]
      rw [hrun]
      have h1 : (((w :: ws.take (bs - 1)).map f).length
          == (w :: ws.take (bs - 1)).length) = true := by
        simp
      have h2 : ((w :: ws.take (bs - 1)).map f).all
          (predShapeOk seqLen tb.n_outputs) = true := by
        rw [List.all_eq_true]
        intro x hx
        obtain ⟨y, hy, rfl⟩ := List.mem_map.mp hx
        refine hshape y ?_
        rcases List.mem_cons.mp hy with h | h
        · exact h ▸ List.mem_cons_self _ _
        · exact List.mem_cons_of_mem _ (List.take_subset _ _ h)
      have hrec := ih (ws.drop (bs - 1))
        (by simp [List.length_drop] at hl ⊢; omega)
        (fun x hx => hshape x (List.mem_cons_of_mem _ (List.drop_subset _ _ hx)))
      simp only [h1, h2, Bool.and_self, if_true, hrec]
      have hsplit : w :: ws = (w :: ws.take (bs - 1)) ++ ws.drop (bs - 1) := by
        rw [List.cons_append, List.take_append_drop]
      rw [hsplit, List.map_append, List.map_map]
      rfl

/-- C2, counterexample: with a backend whose inference fails with the error
`boom`, `NNSplit::split` does not return that error to the caller as the
result of the call — its return type `Vec<Split>` has no error case — but
panics via `.expect("model failure.")`, with a message that wraps (and so
alters) the backend error. -/
theorem C2_counterexample :
    failingNN.split ["Das ist ein Test."] =
      PanicOr.panicked "model failure.: boom"
    ∧ "model failure.: boom" ≠ "boom" := by
  constructor
  · simp [NNSplit.split, failingNN, NNSplitLogic.new, witEnc, witOptions,
      TractBackend.predict, TractBackend.predictGo, boomRun]
  · decide

/-- C2, amended: if the backend inference call fails during `split`, the call
panics with the message `model failure.` followed by the backend error — the
error is not returned as a value — and no tree, partial or otherwise, is
returned; the single `predict` call is not retried. -/
theorem C2_split_panics_on_model_failure (nn : NNSplit) (texts : List String)
    (e : String)
    (h : nn.backend.predict (nn.logic.get_inputs_and_indices texts).1
        nn.logic.options.batch_size = Except.error e) :
    nn.split texts = PanicOr.panicked ("model failure.: " ++ e) := by
  simp only [NNSplit.split]
  rw [h]

/-- C2, witness: the amended statement applied to the concrete failing
splitter. -/
theorem C2_witness :
    failingNN.backend.predict
        (failingNN.logic.get_inputs_and_indices ["a"]).1
        failingNN.logic.options.batch_size = Except.error "boom"
    ∧ failingNN.split ["a"] = PanicOr.panicked ("model failure.: " ++ "boom") := by
  have h : failingNN.backend.predict
      (failingNN.logic.get_inputs_and_indices ["a"]).1
      failingNN.logic.options.batch_size = Except.error "boom" := by
    simp [failingNN, NNSplitLogic.new, witEnc, witOptions,
      TractBackend.predict, TractBackend.predictGo, boomRun]
  exact ⟨h, C2_split_panics_on_model_failure failingNN ["a"] "boom" h⟩

/-- C3, counterexample: a model whose backend reports 3 output channels loads
successfully from metadata declaring a 2-level split sequence; the channel
count of the hierarchy descriptor is not compared with the backend's output
channel count, so a mismatch does not cause a load failure as the claim's
"exactly when" requires. -/
theorem C3_counterexample :
    (NNSplit.from_model cexProps cexParse okRun (TDim.val 3) witOptions witEnc
      witBuild).isOk = true
    ∧ (NNSplit.from_model cexProps cexParse okRun (TDim.val 3) witOptions
        witEnc witBuild).toOption.map
        (fun nn => (nn.backend.n_outputs, nn.logic.split_sequence.levels.length))
      = some (3, 2)
    ∧ (3 : Nat) ≠ 2 := by
  refine ⟨rfl, rfl, by omega⟩

/-- C3, amended: loading a model fails with a metadata error exactly when the
`split_sequence` metadata entry is missing or not parseable; a channel-count
mismatch between the descriptor and the backend's output channels is not
checked and does not prevent construction. In the failing cases no splitter
is constructed (the result carries no `NNSplit`). -/
theorem C3_load_error_iff (metadata_props : List MetadataProp)
    (parse : String → Option SplitSequence)
    (run : List Window → Except String (List PredMat)) (outDim : TDim)
    (options : NNSplitOptions)
    (enc : List String → List Window × List (Nat × Nat))
    (build : String → List PredMat → List (Nat × Nat) → Split) :
    (NNSplit.from_model metadata_props parse run outDim options enc
      build).isOk = false
    ↔ metadataBad metadata_props parse = true := by
  unfold NNSplit.from_model metadataBad TractBackend.new
  cases hf : (metadata_props.find? (fun x => x.key == "split_sequence")).map
      MetadataProp.value with
  | none => simp [Except.isOk, Except.toBool]
  | some s =>
    cases hp : parse s with
    | none => simp [hp, Except.isOk, Except.toBool]
    | some seq => simp [hp, Except.isOk, Except.toBool]

/-- C3, witness: the amended statement applied to empty metadata (the
`split_sequence` key is missing, so loading fails). -/
theorem C3_witness :
    (NNSplit.from_model [] cexParse okRun (TDim.val 3) witOptions witEnc
      witBuild).isOk = false :=
  (C3_load_error_iff [] cexParse okRun (TDim.val 3) witOptions witEnc
    witBuild).mpr rfl

/-- C4: when the backend model maps a per-window function `f` over each batch
(each output row depends only on the corresponding input row, as a
sequence-labeling model does) and the per-window predictions have the
expected shape, `TractBackend::predict` returns, for every positive
`batch_size`, the same output tensor: row `i` holds the sigmoid of `f` at
input row `i`, independently of how the rows were partitioned into
sub-batches. -/
theorem C4_predict_batch_invariant (tb : TractBackend) (f : Window → PredMat)
    (input : List Window) (bs : Nat)
    (hrun : ∀ b, tb.run b = Except.ok (b.map f))
    (hshape : ∀ w ∈ input, predShapeOk (colsOf input) tb.n_outputs (f w) = true)
    (hbs : 0 < bs) :
    tb.predict input bs = Except.ok (input.map (fun w => sigmoidMat (f w))) := by
  unfold TractBackend.predict
  have hb : (bs == 0) = false := by simp; omega
  simp only [hb, Bool.false_eq_true, if_false]
  exact predictGo_rowwise tb f (colsOf input) bs hrun input.length input
    le_rfl hshape

/-- C4, witness: the batch invariance applied to a concrete two-window input
with batch size 2. -/
theorem C4_witness :
    (∀ b, okRun b = Except.ok (b.map witF))
    ∧ (∀ w ∈ ([[0, 0], [1, 2]] : List Window),
        predShapeOk (colsOf [[0, 0], [1, 2]]) 1 (witF w) = true)
    ∧ 0 < 2
    ∧ TractBackend.predict { run := okRun, n_outputs := 1 } [[0, 0], [1, 2]] 2
      = Except.ok ([[0, 0], [1, 2]].map (fun w => sigmoidMat (witF w))) := by
  have hrun : ∀ b, okRun b = Except.ok (b.map witF) := fun b => rfl
  have hshape : ∀ w ∈ ([[0, 0], [1, 2]] : List Window),
      predShapeOk (colsOf [[0, 0], [1, 2]]) 1 (witF w) = true := by
    intro w hw
    rcases List.mem_cons.mp hw with h | h
    · subst h; rfl
    · rcases List.mem_cons.mp h with h2 | h2
      · subst h2; rfl
      · simp at h2
  exact ⟨hrun, hshape, by omega,
    C4_predict_batch_invariant { run := okRun, n_outputs := 1 } witF
      [[0, 0], [1, 2]] 2 hrun hshape (by omega)⟩

/-- C5: when the backend inference succeeds, `NNSplit::split` returns one
`Split` tree per input text — the result is the input list mapped through the
per-text tree builder, so it has the same length as the input and pairs the
tree at position `i` with the text at position `i`. -/
theorem C5_one_tree_per_text (nn : NNSplit) (texts : List String)
    (slice_preds : List PredMat)
    (h : nn.backend.predict (nn.logic.get_inputs_and_indices texts).1
        nn.logic.options.batch_size = Except.ok slice_preds) :
    nn.split texts =
      PanicOr.ok (texts.map (fun t =>
        nn.logic.build t slice_preds (nn.logic.get_inputs_and_indices texts).2))
    ∧ (texts.map (fun t =>
        nn.logic.build t slice_preds
          (nn.logic.get_inputs_and_indices texts).2)).length = texts.length := by
  constructor
  · simp only [NNSplit.split]
    rw [h]
    rfl
  · simp

/-- C5, witness: the per-text correspondence applied to the concrete
splitter on two texts. -/
theorem C5_witness :
    okNN.backend.predict (okNN.logic.get_inputs_and_indices ["x", "y"]).1
        okNN.logic.options.batch_size = Except.ok [sigmoidMat (witF [0, 0])]
    ∧ okNN.split ["x", "y"] = PanicOr.ok [Split.text "x", Split.text "y"] := by
  have h : okNN.backend.predict
      (okNN.logic.get_inputs_and_indices ["x", "y"]).1
      okNN.logic.options.batch_size = Except.ok [sigmoidMat (witF [0, 0])] := by
    simp [okNN, NNSplitLogic.new, witEnc, witOptions, TractBackend.predict,
      TractBackend.predictGo, okRun, predShapeOk, witF, colsOf, sigmoidMat]
  refine ⟨h, ?_⟩
  have hthm := (C5_one_tree_per_text okNN ["x", "y"] [sigmoidMat (witF [0, 0])] h).1
  rw [hthm]
  simp [okNN, NNSplitLogic.new, witBuild]

/-- C6: for a registered model whose URL parses and joins, `get_resource` is
cache-first — when the file at `cache_dir/model_name/file` can be read, its
bytes are returned with the world unchanged and the result does not depend
on the network at all; otherwise the bytes fetched from the model's
registered URL are persisted into the cache at the path keyed by model name
and file name, and those same bytes are returned. -/
theorem C6_get_resource_cache_first (registry : ModelRegistry) (urls : UrlLib)
    (model_name file : String) (cache_path : FsPath) (w : World)
    (base bu u : String)
    (hreg : registry.get model_name = some base)
    (hparse : urls.parse base = Except.ok bu)
    (hjoin : urls.join bu file = Except.ok u) :
    (∀ bytes, w.read (cache_path ++ [model_name, file]) = some bytes →
      get_resource registry urls model_name file cache_path w =
        Except.ok (bytes, cache_path ++ [model_name, file], w))
    ∧ (∀ bytes net2, w.read (cache_path ++ [model_name, file]) = some bytes →
        get_resource registry urls model_name file cache_path
            { w with net := net2 }
          = Except.ok (bytes, cache_path ++ [model_name, file],
              { w with net := net2 }))
    ∧ (∀ bytes, w.read (cache_path ++ [model_name, file]) = none →
        w.net u = Except.ok bytes → w.writeErr = none →
        get_resource registry urls model_name file cache_path w =
          Except.ok (bytes, cache_path ++ [model_name, file],
            { w with fs :=
                (cache_path ++ [model_name, file], bytes) :: w.fs })) := by
  refine ⟨?_, ?_, ?_⟩
  · intro bytes hb
    simp [get_resource, hreg, hparse, hjoin, hb]
  · intro bytes net2 hb
    have hb2 : World.read { w with net := net2 }
        (cache_path ++ [model_name, file]) = some bytes := hb
    simp [get_resource, hreg, hparse, hjoin, hb, hb2]
  · intro bytes hb hn hw
    simp [get_resource, hreg, hparse, hjoin, hb, hn, hw]

/-- C6, witness: the cache-hit branch applied to a concrete world whose
cache holds the bytes and whose network is unreachable. -/
theorem C6_witness :
    registry1.get "de" = some "https-base"
    ∧ urls1.parse "https-base" = Except.ok "https-base"
    ∧ urls1.join "https-base" "model.onnx"
      = Except.ok "https-base/model.onnx"
    ∧ w1.read (["cache"] ++ ["de", "model.onnx"]) = some [1, 2, 3]
    ∧ get_resource registry1 urls1 "de" "model.onnx" ["cache"] w1
      = Except.ok ([1, 2, 3], ["cache"] ++ ["de", "model.onnx"], w1) := by
  refine ⟨rfl, rfl, rfl, rfl, ?_⟩
  exact (C6_get_resource_cache_first registry1 urls1 "de" "model.onnx"
    ["cache"] w1 "https-base" "https-base" "https-base/model.onnx"
    rfl rfl rfl).1 [1, 2, 3] rfl

/-- C7, counterexample: a registered model whose registry entry does not
parse as a URL makes `get_resource` fail with `UrlParseError` — a fourth
error kind that is none of the three the claim allows (`ResourceNotFound`,
`TransferFailure`, `CacheIoFailure`). -/
theorem C7_counterexample :
    get_resource registry2 urls2 "m" "f" [] w2
      = Except.error (ResourceError.urlParseError "relative URL without a base")
    ∧ specAllowedErrorKind
        (ResourceError.urlParseError "relative URL without a base") = false :=
  ⟨rfl, rfl⟩

/-- C7, amended: `get_resource` can fail only with the four variants of
`ResourceError` — `ModelNotFoundError`, `NetworkError`, `IoError`, and
additionally `UrlParseError` (not in the spec's taxonomy). Each is surfaced
as-is: an unknown model name fails with `ModelNotFoundError` carrying that
name; a `NetworkError` carries the requested model and file names and the
network's own error; an `IoError` carries the filesystem's error; a
`UrlParseError` carries the url library's error. -/
theorem C7_error_taxonomy (registry : ModelRegistry) (urls : UrlLib)
    (model_name file : String) (cache_path : FsPath) (w : World) :
    (registry.get model_name = none →
      get_resource registry urls model_name file cache_path w
        = Except.error (ResourceError.modelNotFoundError model_name))
    ∧ (∀ m f s, get_resource registry urls model_name file cache_path w
          = Except.error (ResourceError.networkError m f s) →
        m = model_name ∧ f = file ∧ ∃ u, w.net u = Except.error s)
    ∧ (∀ s, get_resource registry urls model_name file cache_path w
          = Except.error (ResourceError.ioError s) →
        w.writeErr = some s)
    ∧ (∀ s, get_resource registry urls model_name file cache_path w
          = Except.error (ResourceError.urlParseError s) →
        (∃ b, urls.parse b = Except.error s)
        ∨ (∃ bu, urls.join bu file = Except.error s)) := by
  refine ⟨?_, ?_, ?_, ?_⟩
  · intro h
    simp [get_resource, h]
  · intro m f s h
    rcases hr : registry.get model_name with _ | base
    · simp [get_resource, hr] at h
    · rcases hp : urls.parse base with e | bu
      · simp [get_resource, hr, hp] at h
      · rcases hj : urls.join bu file with e | u
        · simp [get_resource, hr, hp, hj] at h
        · rcases hb : w.read (cache_path ++ [model_name, file])
            with _ | bytes
          · rcases hn : w.net u with e | bytes2
            · simp [get_resource, hr, hp, hj, hb, hn] at h
              obtain ⟨h1, h2, h3⟩ := h
              exact ⟨h1.symm, h2.symm, u, by rw [hn, h3]⟩
            · rcases hw : w.writeErr with _ | e
              · simp [get_resource, hr, hp, hj, hb, hn, hw] at h
              · simp [get_resource, hr, hp, hj, hb, hn, hw] at h
          · simp [get_resource, hr, hp, hj, hb] at h
  · intro s h
    rcases hr : registry.get model_name with _ | base
    · simp [get_resource, hr] at h
    · rcases hp : urls.parse base with e | bu
      · simp [get_resource, hr, hp] at h
      · rcases hj : urls.join bu file with e | u
        · simp [get_resource, hr, hp, hj] at h
        · rcases hb : w.read (cache_path ++ [model_name, file])
            with _ | bytes
          · rcases hn : w.net u with e | bytes2
            · simp [get_resource, hr, hp, hj, hb, hn] at h
            · rcases hw : w.writeErr with _ | e
              · simp [get_resource, hr, hp, hj, hb, hn, hw] at h
              · simp [get_resource, hr, hp, hj, hb, hn, hw] at h
                subst h
                rfl
          · simp [get_resource, hr, hp, hj, hb] at h
  · intro s h
    rcases hr : registry.get model_name with _ | base
    · simp [get_resource, hr] at h
    · rcases hp : urls.parse base with e | bu
      · simp [get_resource, hr, hp] at h
        subst h
        exact Or.inl ⟨base, hp⟩
      · rcases hj : urls.join bu file with e | u
        · simp [get_resource, hr, hp, hj] at h
          subst h
          exact Or.inr ⟨bu, hj⟩
        · rcases hb : w.read (cache_path ++ [model_name, file])
            with _ | bytes
          · rcases hn : w.net u with e | bytes2
            · simp [get_resource, hr, hp, hj, hb, hn] at h
            · rcases hw : w.writeErr with _ | e
              · simp [get_resource, hr, hp, hj, hb, hn, hw] at h
              · simp [get_resource, hr, hp, hj, hb, hn, hw] at h
          · simp [get_resource, hr, hp, hj, hb] at h

/-- C7, witness: the unknown-model case applied to a concrete registry. -/
theorem C7_witness :
    registry2.get "unknown" = none
    ∧ get_resource registry2 urls2 "unknown" "f" [] w2
      = Except.error (ResourceError.modelNotFoundError "unknown") :=
  ⟨rfl, (C7_error_taxonomy registry2 urls2 "unknown" "f" [] w2).1 rfl⟩

/-- C8, counterexample: option values that are invalid according to the spec
— a threshold of 2 (outside (0,1)) and zero stride, max_length and
length_divisor — are accepted by the JS constructor's options handling
without any error: the outcome is `ok` with exactly those values, not a
rejection with an `InvalidOptions` error. -/
theorem C8_counterexample :
    jsNewOptions witOptions (some (some invalidOptions))
      = OptionsOutcome.ok invalidOptions
    ∧ invalidOptions.threshold = 2.0
    ∧ invalidOptions.stride = 0
    ∧ invalidOptions.max_length = 0
    ∧ invalidOptions.length_divisor = 0 :=
  ⟨rfl, rfl, rfl, rfl, rfl⟩

/-- C8, amended: no validation of option values happens at
options-construction time — any deserializable values, however invalid per
the spec's ranges, are accepted unchanged; absent options yield the
defaults; a failed deserialization panics (`unwrap`) instead of returning an
error; and `split` does not fail because of option values: with a
successful backend it returns its trees whatever the options hold. -/
theorem C8_no_options_validation (d o : NNSplitOptions) (nn : NNSplit)
    (texts : List String) (slice_preds : List PredMat)
    (h : nn.backend.predict (nn.logic.get_inputs_and_indices texts).1
        nn.logic.options.batch_size = Except.ok slice_preds) :
    jsNewOptions d (some (some o)) = OptionsOutcome.ok o
    ∧ jsNewOptions d none = OptionsOutcome.ok d
    ∧ jsNewOptions d (some none)
      = OptionsOutcome.panicked "called `Result::unwrap()` on an `Err` value"
    ∧ nn.split texts = PanicOr.ok (texts.map (fun t =>
        nn.logic.build t slice_preds
          (nn.logic.get_inputs_and_indices texts).2)) := by
  refine ⟨rfl, rfl, rfl, ?_⟩
  simp only [NNSplit.split]
  rw [h]
  rfl

/-- C8, witness: the amended statement applied to the concrete invalid
options and the concrete working splitter. -/
theorem C8_witness :
    okNN.backend.predict (okNN.logic.get_inputs_and_indices ["z"]).1
        okNN.logic.options.batch_size = Except.ok [sigmoidMat (witF [0, 0])]
    ∧ jsNewOptions witOptions (some (some invalidOptions))
      = OptionsOutcome.ok invalidOptions
    ∧ okNN.split ["z"] = PanicOr.ok (["z"].map (fun t =>
        okNN.logic.build t [sigmoidMat (witF [0, 0])]
          (okNN.logic.get_inputs_and_indices ["z"]).2)) := by
  have h : okNN.backend.predict
      (okNN.logic.get_inputs_and_indices ["z"]).1
      okNN.logic.options.batch_size = Except.ok [sigmoidMat (witF [0, 0])] := by
    simp [okNN, NNSplitLogic.new, witEnc, witOptions, TractBackend.predict,
      TractBackend.predictGo, okRun, predShapeOk, witF, colsOf, sigmoidMat]
  have hthm := C8_no_options_validation witOptions invalidOptions okNN ["z"]
    [sigmoidMat (witF [0, 0])] h
  exact ⟨h, hthm.1, hthm.2.2.2⟩

/-- C9: converting a core `Split` into the JavaScript binding's `Split` type
panics exactly on `Text` leaves and succeeds exactly on `Split::Split`
nodes, so the JS split method — which feeds every per-text tree through this
conversion — relies on the core logic never returning a bare `Text` leaf as
a per-text result. -/
theorem C9_fromCore_panics_on_text (s t : String) (parts : List Split) :
    Split.fromCore (Split.text s) = none
    ∧ (Split.fromCore (Split.node t parts)).isSome = true :=
  ⟨rfl, rfl⟩

/-- C10: the synchronous JavaScript constructor `invalid_new` returns an
error on every invocation, unconditionally — it never yields an instance, so
an `NNSplit` can only come from the asynchronous `NNSplit.new` factory. -/
theorem C10_invalid_new_always_errors :
    NNSplitJs.invalid_new = Except.error
      "NNSplit cannot be constructed directly because it is asynchronous! Please use NNSplit.new."
    ∧ NNSplitJs.invalid_new.isOk = false :=
  ⟨rfl, rfl⟩
